import Mathlib

/-
  Verification development for the particle_compute_shader repository
  (src/src/main.rs): a nannou/wgpu boid simulation that keeps a fixed
  buffer of particles, updates it once per frame with a compute dispatch,
  and renders it as instanced triangles.

  Scalars are modelled as rationals.  Every f32 computation that the
  claims depend on (50000 / 256, its ceiling, the byte offsets) is exact
  in f32, so the rational model is faithful at those points.

  The WGSL shader sources (compute_shader.wgsl, vertex_shader.wgsl,
  fragment_shader.wgsl) are referenced from main.rs by include_str but
  are not part of the source snapshot; where a claim depends on them
  (the simulation kernel body, the quadtree build, the workgroup size
  attribute) the corresponding definition is modelled from the spec and
  marked as such in its doc comment.
-/

namespace ParticleShader

/-- PARTICLE_COUNT from main.rs line 5: the constant 5_0000, i.e. 50000. -/
def PARTICLE_COUNT : ℕ := 50000

/-- Modelled from the spec: the workgroup size of the missing compute
shader (compute_shader.wgsl is not under src/).  The dispatch arithmetic
in main.rs line 178 divides by 256, and the spec describes fixed-size
scheduling batches; we take 256 as the per-workgroup invocation count. -/
def WORKGROUP_SIZE : ℕ := 256

/-- One particle record, from main.rs lines 14-19: a repr(C) struct with
a two-component position followed by a two-component velocity. -/
structure Particle where
  position : ℚ × ℚ
  velocity : ℚ × ℚ
deriving DecidableEq, Repr

instance : Inhabited Particle := ⟨⟨(0, 0), (0, 0)⟩⟩

/-- The value of random_range lo hi from an abstract unit sample u,
mirroring the uniform draw from the half-open range [lo, hi) that
nannou performs: the sample is mapped affinely onto the range. -/
def random_range (lo hi u : ℚ) : ℚ := lo + (hi - lo) * u

/-- The particle built for index i at initialization, from main.rs lines
42-47: position components drawn from [-1, 1), velocity components from
[-0.001, 0.001), four consecutive draws per particle, nothing else set. -/
def initParticle (u : ℕ → ℚ) (i : ℕ) : Particle :=
  { position := (random_range (-1) 1 (u (4 * i)), random_range (-1) 1 (u (4 * i + 1))),
    velocity := (random_range (-(1 / 1000)) (1 / 1000) (u (4 * i + 2)),
                 random_range (-(1 / 1000)) (1 / 1000) (u (4 * i + 3))) }

/-- The initial particle vector, from main.rs lines 42-47:
(0..PARTICLE_COUNT).map of a fresh randomized particle. -/
def initParticles (u : ℕ → ℚ) (count : ℕ) : List Particle :=
  (List.range count).map (initParticle u)

/-- The workgroup count of the per-frame dispatch, from main.rs line 178:
(PARTICLE_COUNT as f32 / 256.0).ceil() as u32.  Both operands and the
quotient 195.3125 are exactly representable in f32, so the f32
computation agrees with this exact rational one. -/
def workgroups_x : ℕ := (Int.ceil ((PARTICLE_COUNT : ℚ) / 256)).toNat

/- ------------------------------------------------------------------
   Byte layout of Particle and the vertex buffer layout (main.rs 101-118)
   ------------------------------------------------------------------ -/

/-- Size in bytes of an f32. -/
def f32Size : ℕ := 4

/-- Alignment in bytes of an f32. -/
def f32Align : ℕ := 4

/-- Round off up to the next multiple of align. -/
def alignUp (off align : ℕ) : ℕ := ((off + align - 1) / align) * align

/-- Field offsets assigned by the repr(C) layout algorithm to a list of
(size, align) fields, starting from a current offset. -/
def reprCOffsets : List (ℕ × ℕ) → ℕ → List ℕ
  | [], _ => []
  | (sz, al) :: rest, cur =>
      let off := alignUp cur al
      off :: reprCOffsets rest (off + sz)

/-- Total size assigned by the repr(C) layout algorithm: the end offset
of the last field rounded up to the struct alignment. -/
def reprCSize (fields : List (ℕ × ℕ)) : ℕ :=
  let structAlign := fields.foldl (fun a f => max a f.2) 1
  let endOff := fields.foldl (fun cur f => alignUp cur f.2 + f.1) 0
  alignUp endOff structAlign

/-- The (size, align) list of the fields of Particle: two [f32 x 2]
arrays, each 8 bytes with 4-byte alignment. -/
def particleFields : List (ℕ × ℕ) := [(2 * f32Size, f32Align), (2 * f32Size, f32Align)]

/-- mem::size_of::<Particle>() under repr(C). -/
def sizeOfParticle : ℕ := reprCSize particleFields

/-- Vertex formats used by the render pipeline. -/
inductive VertexFormat
  | Float32x2
deriving DecidableEq, Repr

/-- One wgpu vertex attribute: byte offset, shader location, format. -/
structure VertexAttribute where
  offset : ℕ
  shader_location : ℕ
  format : VertexFormat
deriving DecidableEq, Repr

/-- Vertex step modes. -/
inductive StepMode
  | Vertex
  | Instance
deriving DecidableEq, Repr

/-- A wgpu vertex buffer layout. -/
structure VertexBufferLayout where
  array_stride : ℕ
  step_mode : StepMode
  attributes : List VertexAttribute
deriving DecidableEq, Repr

/-- The vertex buffer layout built in main.rs lines 101-118: stride
mem::size_of::<Particle>(), instance stepping, position attribute at
byte offset 0 and location 0, velocity attribute at byte offset 8 and
location 1, both Float32x2. -/
def vertex_buffer_layout : VertexBufferLayout :=
  { array_stride := sizeOfParticle,
    step_mode := StepMode.Instance,
    attributes :=
      [ { offset := 0, shader_location := 0, format := VertexFormat.Float32x2 },
        { offset := 8, shader_location := 1, format := VertexFormat.Float32x2 } ] }

/-- Primitive topologies. -/
inductive PrimitiveTopology
  | PointList
  | TriangleList
deriving DecidableEq, Repr

/-- The topology of the render pipeline, from main.rs line 138. -/
def render_topology : PrimitiveTopology := PrimitiveTopology.TriangleList

/-- The draw call issued by view, from main.rs line 209:
draw(0..3, 0..PARTICLE_COUNT). -/
structure RenderDraw where
  vertexFirst : ℕ
  vertexCount : ℕ
  instanceFirst : ℕ
  instanceCount : ℕ
deriving DecidableEq, Repr

/-- The concrete draw call of view. -/
def viewDraw : RenderDraw :=
  { vertexFirst := 0, vertexCount := 3, instanceFirst := 0, instanceCount := PARTICLE_COUNT }

/- ------------------------------------------------------------------
   Bind groups (main.rs 56-98) and the render pass bindings (206-209)
   ------------------------------------------------------------------ -/

/-- Shader stage visibility flags, modelled as one boolean per stage. -/
structure ShaderStages where
  compute : Bool
  vertex : Bool
  fragment : Bool
deriving DecidableEq, Repr

/-- The COMPUTE-only visibility value. -/
def COMPUTE : ShaderStages := { compute := true, vertex := false, fragment := false }

/-- Buffer binding types. -/
inductive BufferBindingType
  | Storage (read_only : Bool)
  | Uniform
deriving DecidableEq, Repr

/-- One bind group layout entry: binding slot, stage visibility, type. -/
structure BindGroupLayoutEntry where
  binding : ℕ
  visibility : ShaderStages
  ty : BufferBindingType
deriving DecidableEq, Repr

/-- The single bind group layout of the program, from main.rs lines
56-68: binding 0, visible to the compute stage only, a read-write
storage buffer. -/
def bind_group_layout_entries : List BindGroupLayoutEntry :=
  [ { binding := 0, visibility := COMPUTE, ty := BufferBindingType.Storage false } ]

/-- The bind group layouts of the render pipeline layout, from main.rs
line 96: an empty slice, so the render pipeline sees no bind group at
all, hence no storage binding. -/
def render_pipeline_bind_group_layouts : List (List BindGroupLayoutEntry) := []

/-- GPU buffers of the program.  The particle buffer is the only one. -/
inductive BufferRef
  | particleBuffer
deriving DecidableEq, Repr

/-- The vertex buffers bound by the render pass of view, from main.rs
line 208: the particle buffer at slot 0, as a vertex buffer, which in
wgpu is a read-only use. -/
def viewVertexBuffers : List (ℕ × BufferRef) := [(0, BufferRef.particleBuffer)]

/- ------------------------------------------------------------------
   Queue submissions and their sequential execution semantics
   ------------------------------------------------------------------ -/

/-- A kernel abstracts the per-invocation body of the compute shader:
given the pre-dispatch store, the neighbor-query results for an index,
and the index itself, it yields the new particle.  The shader source is
not under src/, so the body stays abstract; the spec fixes only this
shape (a pure function of the previous-frame snapshot). -/
def Kernel : Type := List Particle → List ℕ → ℕ → Particle

/-- One queue submission, as encoded by update (a compute pass holding a
single dispatch_workgroups call) and by view (a render pass holding a
single draw call). -/
inductive Submission
  | compute (workgroups : ℕ × ℕ × ℕ)
  | render (draw : RenderDraw)
deriving DecidableEq, Repr

/-- Whether a submission is a compute submission. -/
def Submission.isCompute : Submission → Bool
  | .compute _ => true
  | .render _ => false

/-- The submissions issued by one call to update, from main.rs lines
163-183: one command encoder, one compute pass, exactly one dispatch of
(workgroups_x, 1, 1), submitted once. -/
def updateSubmissions : List Submission :=
  [Submission.compute (workgroups_x, 1, 1)]

/-- The submissions issued by one call to view, from main.rs lines
185-213: one render pass with the single draw call, submitted once. -/
def viewSubmissions : List Submission :=
  [Submission.render viewDraw]

/-- The per-frame submission order: nannou runs update and then view
each frame (main.rs line 216 registers both on the app), so the queue
receives the compute submission of update before the render submission
of view. -/
def frameSubmissions : List Submission := updateSubmissions ++ viewSubmissions

/-- GPU-visible state: the particle buffer contents, plus a log of the
store contents observed by each executed render pass (each render pass
reads the store as instance data; the log records exactly what it read). -/
structure GPUState where
  particles : List Particle
  rendered : List (List Particle)
deriving DecidableEq, Repr

/-- Sequential execution of one submission, following the wgpu queue
model: submissions run in order; a compute dispatch of w workgroups runs
w * WORKGROUP_SIZE invocations, invocation i rewrites particle i from
the pre-dispatch snapshot when i is in range and out-of-range particles
keep their old value; a render pass reads the store and writes only the
frame texture, recorded here by logging the store it observed. -/
def execSubmission (k : Kernel) (nb : ℕ → List ℕ) : Submission → GPUState → GPUState
  | Submission.compute (w, _, _), st =>
      { st with particles :=
          (List.range st.particles.length).map fun i =>
            if i < w * WORKGROUP_SIZE then k st.particles (nb i) i
            else st.particles.getD i default }
  | Submission.render _, st =>
      { st with rendered := st.rendered ++ [st.particles] }

/-- Execute a list of submissions in queue order. -/
def execSubmissions (k : Kernel) (nb : ℕ → List ℕ) (subs : List Submission)
    (st : GPUState) : GPUState :=
  subs.foldl (fun s sub => execSubmission k nb sub s) st

/-- Execute one frame: the submissions of update followed by those of
view. -/
def execFrame (k : Kernel) (nb : ℕ → List ℕ) (st : GPUState) : GPUState :=
  execSubmissions k nb frameSubmissions st

/-- Execute n successive frames. -/
def runFrames (k : Kernel) (nb : ℕ → List ℕ) (st : GPUState) : ℕ → GPUState
  | 0 => st
  | n + 1 => execFrame k nb (runFrames k nb st n)

/- ------------------------------------------------------------------
   The simulation step as a parallel map, and its scheduling freedom
   (spec sections 4.3 and 5; the kernel body lives in the missing
   compute_shader.wgsl, so it is modelled from the spec contract)
   ------------------------------------------------------------------ -/

/-- Modelled from the spec: one simulation step as the parallel map the
spec prescribes for the missing compute shader — every particle index is
rewritten by a pure function of the pre-step snapshot and the
neighbor-query results for that index, never of any same-step updated
value. -/
def parallelStep (k : Kernel) (nb : ℕ → List ℕ) (s : List Particle) : List Particle :=
  (List.range s.length).map fun i => k s (nb i) i

/-- A sequential scheduling of the same step: process particle indices
in an arbitrary given order, each write taking its value from the
pre-step snapshot s (not from the partially written accumulator). -/
def schedStep (k : Kernel) (nb : ℕ → List ℕ) (s : List Particle) :
    List ℕ → List Particle → List Particle
  | [], acc => acc
  | i :: rest, acc => schedStep k nb s rest (acc.set i (k s (nb i) i))

/- ------------------------------------------------------------------
   Per-frame phase ordering (spec sections 4.2 and 5; the quadtree build
   lives in the missing compute_shader.wgsl, modelled from the spec)
   ------------------------------------------------------------------ -/

/-- The observable phases of one frame. -/
inductive FrameOp
  | buildIndex
  | simDispatch
  | renderPass
deriving DecidableEq, Repr, BEq

/-- Modelled from the spec: the work of one update call — the missing
compute shader first builds the spatial index over current positions,
then runs the simulation kernel. -/
def updateOps : List FrameOp := [FrameOp.buildIndex, FrameOp.simDispatch]

/-- The work of one view call: the render pass. -/
def viewOps : List FrameOp := [FrameOp.renderPass]

/-- The phases of one frame in execution order: update then view. -/
def frameOps : List FrameOp := updateOps ++ viewOps

/-- Modelled from the spec: the dataflow of the per-frame compute work
for an arbitrary quadtree representation QT — build the quadtree from
the current (pre-update) particle positions, then hand that same tree to
every kernel invocation of the step. -/
def frameComputePhased {QT : Type} (build : List (ℚ × ℚ) → QT)
    (k : QT → List Particle → List ℕ → ℕ → Particle) (nb : ℕ → List ℕ)
    (s : List Particle) : List Particle :=
  let qt := build (s.map Particle.position)
  (List.range s.length).map fun i => k qt s (nb i) i

/- ------------------------------------------------------------------
   Concrete inputs used to instantiate the theorems
   ------------------------------------------------------------------ -/

/-- A concrete kernel: every particle keeps its old value. -/
def demoKernel : Kernel := fun s _ i => s.getD i default

/-- A concrete neighbor-query result function: no neighbors anywhere. -/
def demoNb : ℕ → List ℕ := fun _ => []

/-- A concrete unit-sample stream: every draw is one half. -/
def demoU : ℕ → ℚ := fun _ => 1 / 2

/-- A GPU state holding a freshly initialized store. -/
def demoState : GPUState :=
  { particles := initParticles demoU PARTICLE_COUNT, rendered := [] }

/-- A two-particle store for small concrete checks. -/
def demoSmallStore : List Particle :=
  [ { position := (0, 0), velocity := (1, 0) },
    { position := (1, 1), velocity := (0, 1) } ]

/- ------------------------------------------------------------------
   Helper lemmas
   ------------------------------------------------------------------ -/

/-- The workgroup count of the dispatch evaluates to 196. -/
theorem workgroups_x_eq : workgroups_x = 196 := by
  have h1 : ((PARTICLE_COUNT : ℕ) : ℚ) = 50000 := by norm_num [PARTICLE_COUNT]
  have hc : Int.ceil ((PARTICLE_COUNT : ℚ) / 256) = 196 := by
    rw [h1, Int.ceil_eq_iff]
    constructor <;> norm_num
  show (Int.ceil ((PARTICLE_COUNT : ℚ) / 256)).toNat = 196
  rw [hc]
  rfl

/-- Any single submission leaves the length of the particle store
unchanged. -/
theorem execSubmission_length (k : Kernel) (nb : ℕ → List ℕ) (sub : Submission)
    (st : GPUState) :
    ((execSubmission k nb sub st).particles).length = st.particles.length := by
  cases sub with
  | compute w =>
      obtain ⟨w1, w2, w3⟩ := w
      simp [execSubmission]
  | render d => simp [execSubmission]

/-- One whole frame leaves the length of the particle store unchanged. -/
theorem execFrame_length (k : Kernel) (nb : ℕ → List ℕ) (st : GPUState) :
    ((execFrame k nb st).particles).length = st.particles.length := by
  show ((execSubmission k nb (Submission.render viewDraw)
      (execSubmission k nb (Submission.compute (workgroups_x, 1, 1)) st)).particles).length
      = st.particles.length
  rw [execSubmission_length, execSubmission_length]

/-- Any number of frames leaves the length of the particle store
unchanged. -/
theorem runFrames_length (k : Kernel) (nb : ℕ → List ℕ) (st : GPUState) (n : ℕ) :
    ((runFrames k nb st n).particles).length = st.particles.length := by
  induction n with
  | zero => rfl
  | succ m ih => rw [runFrames, execFrame_length, ih]

/-- The affine image of a unit sample lies in the half-open target
range. -/
theorem random_range_bounds (lo hi u : ℚ) (hlt : lo < hi) (h0 : 0 ≤ u) (h1 : u < 1) :
    lo ≤ random_range lo hi u ∧ random_range lo hi u < hi := by
  unfold random_range
  constructor
  · nlinarith
  · nlinarith

/-- The store length is preserved by a sequential scheduling of the
step. -/
theorem schedStep_length (k : Kernel) (nb : ℕ → List ℕ) (s : List Particle)
    (order : List ℕ) (acc : List Particle) :
    (schedStep k nb s order acc).length = acc.length := by
  induction order generalizing acc with
  | nil => rfl
  | cons i rest ih => simp [schedStep, ih]

/-- Entrywise description of a sequential scheduling of the step: a slot
listed in the order holds the kernel result computed from the pre-step
snapshot, every other slot keeps its accumulator value. -/
theorem schedStep_getElem (k : Kernel) (nb : ℕ → List ℕ) (s : List Particle)
    (order : List ℕ) (acc : List Particle) (hall : ∀ i ∈ order, i < acc.length) (j : ℕ) :
    (schedStep k nb s order acc)[j]? =
      if j ∈ order then some (k s (nb j) j) else acc[j]? := by
  induction order generalizing acc with
  | nil => simp [schedStep]
  | cons i rest ih =>
      have hi : i < acc.length := hall i (List.mem_cons_self i rest)
      have hrest : ∀ x ∈ rest, x < (acc.set i (k s (nb i) i)).length := by
        intro x hx
        rw [List.length_set]
        exact hall x (List.mem_cons_of_mem i hx)
      simp only [schedStep]
      rw [ih _ hrest]
      by_cases hjr : j ∈ rest
      · simp [hjr, List.mem_cons]
      · by_cases hji : j = i
        · subst hji
          simp [hjr, List.getElem?_set_self hi, List.mem_cons]
        · simp [hjr, hji, List.mem_cons, List.getElem?_set_ne (Ne.symm hji)]

/- ------------------------------------------------------------------
   Claim theorems
   ------------------------------------------------------------------ -/

/-- C1: per frame, update submits exactly one compute dispatch over the
particle buffer, the queue receives that simulation submission strictly
before the render submission of view, and the store the frame render
pass observes is the one in which every particle index below
PARTICLE_COUNT has been rewritten by the kernel from the pre-frame
snapshot — never a partially updated store. -/
theorem sim_submitted_before_render (k : Kernel) (nb : ℕ → List ℕ) (st : GPUState)
    (h : st.particles.length = PARTICLE_COUNT) :
    (updateSubmissions.filter Submission.isCompute).length = 1 ∧
    frameSubmissions = [Submission.compute (workgroups_x, 1, 1), Submission.render viewDraw] ∧
    (execFrame k nb st).rendered =
      st.rendered ++ [(List.range PARTICLE_COUNT).map fun i => k st.particles (nb i) i] := by
  refine ⟨rfl, rfl, ?_⟩
  have hw : workgroups_x * WORKGROUP_SIZE = 50176 := by
    rw [workgroups_x_eq]
    rfl
  show (execSubmission k nb (Submission.render viewDraw)
      (execSubmission k nb (Submission.compute (workgroups_x, 1, 1)) st)).rendered = _
  simp only [execSubmission]
  rw [h, hw]
  have hmap : (List.range PARTICLE_COUNT).map
        (fun i => if i < 50176 then k st.particles (nb i) i else st.particles.getD i default)
      = (List.range PARTICLE_COUNT).map fun i => k st.particles (nb i) i := by
    apply List.map_congr_left
    intro i hi
    rw [List.mem_range] at hi
    have hP : PARTICLE_COUNT = 50000 := rfl
    have hlt : i < 50176 := by omega
    simp [hlt]
  rw [hmap]

/-- Witness for C1 at a concrete freshly initialized state. -/
theorem sim_submitted_before_render_witness :
    demoState.particles.length = PARTICLE_COUNT ∧
    ((updateSubmissions.filter Submission.isCompute).length = 1 ∧
      frameSubmissions = [Submission.compute (workgroups_x, 1, 1), Submission.render viewDraw] ∧
      (execFrame demoKernel demoNb demoState).rendered =
        demoState.rendered ++
          [(List.range PARTICLE_COUNT).map fun i =>
            demoKernel demoState.particles (demoNb i) i]) :=
  ⟨by simp [demoState, initParticles],
    sim_submitted_before_render demoKernel demoNb demoState
      (by simp [demoState, initParticles])⟩

/-- C2: the store is allocated with exactly PARTICLE_COUNT particles at
initialization, and neither a single submission sequence of a frame nor
any number of frames changes its length: for all frames the length
equals the configured particle count. -/
theorem particle_store_length_invariant (k : Kernel) (nb : ℕ → List ℕ) (u : ℕ → ℚ)
    (st : GPUState) (n : ℕ) :
    (initParticles u PARTICLE_COUNT).length = PARTICLE_COUNT ∧
    ((runFrames k nb st n).particles).length = st.particles.length ∧
    ((runFrames k nb { particles := initParticles u PARTICLE_COUNT, rendered := [] }
        n).particles).length = PARTICLE_COUNT := by
  have hinit : (initParticles u PARTICLE_COUNT).length = PARTICLE_COUNT := by
    simp [initParticles]
  refine ⟨hinit, runFrames_length k nb st n, ?_⟩
  rw [runFrames_length]
  simpa using hinit

/-- C3: initialization builds, for every index below count, exactly the
record whose position components are uniform draws from the range
[-1, 1) and whose velocity components are uniform draws from the range
[-0.001, 0.001) — each draw an affine image of a fresh unit sample, four
consecutive samples per particle — and sets nothing else; all components
lie in the configured ranges. -/
theorem init_uniform_sampling (u : ℕ → ℚ) (hu : ∀ n, 0 ≤ u n ∧ u n < 1)
    (count i : ℕ) (hi : i < count) :
    (initParticles u count)[i]? = some (initParticle u i) ∧
    (initParticle u i).position =
      (random_range (-1) 1 (u (4 * i)), random_range (-1) 1 (u (4 * i + 1))) ∧
    (initParticle u i).velocity =
      (random_range (-(1 / 1000)) (1 / 1000) (u (4 * i + 2)),
        random_range (-(1 / 1000)) (1 / 1000) (u (4 * i + 3))) ∧
    (-1 ≤ (initParticle u i).position.1 ∧ (initParticle u i).position.1 < 1) ∧
    (-1 ≤ (initParticle u i).position.2 ∧ (initParticle u i).position.2 < 1) ∧
    (-(1 / 1000) ≤ (initParticle u i).velocity.1 ∧ (initParticle u i).velocity.1 < 1 / 1000) ∧
    (-(1 / 1000) ≤ (initParticle u i).velocity.2 ∧ (initParticle u i).velocity.2 < 1 / 1000) := by
  refine ⟨?_, rfl, rfl, ?_, ?_, ?_, ?_⟩
  · simp [initParticles, List.getElem?_map, List.getElem?_range hi]
  · exact random_range_bounds (-1) 1 (u (4 * i)) (by norm_num) (hu _).1 (hu _).2
  · exact random_range_bounds (-1) 1 (u (4 * i + 1)) (by norm_num) (hu _).1 (hu _).2
  · exact random_range_bounds (-(1 / 1000)) (1 / 1000) (u (4 * i + 2)) (by norm_num)
      (hu _).1 (hu _).2
  · exact random_range_bounds (-(1 / 1000)) (1 / 1000) (u (4 * i + 3)) (by norm_num)
      (hu _).1 (hu _).2

/-- Witness for C3 at a concrete sample stream, count 3, index 1. -/
theorem init_uniform_sampling_witness :
    (∀ n, 0 ≤ demoU n ∧ demoU n < 1) ∧ 1 < 3 ∧
    ((initParticles demoU 3)[1]? = some (initParticle demoU 1) ∧
      (initParticle demoU 1).position =
        (random_range (-1) 1 (demoU 4), random_range (-1) 1 (demoU 5)) ∧
      (initParticle demoU 1).velocity =
        (random_range (-(1 / 1000)) (1 / 1000) (demoU 6),
          random_range (-(1 / 1000)) (1 / 1000) (demoU 7)) ∧
      (-1 ≤ (initParticle demoU 1).position.1 ∧ (initParticle demoU 1).position.1 < 1) ∧
      (-1 ≤ (initParticle demoU 1).position.2 ∧ (initParticle demoU 1).position.2 < 1) ∧
      (-(1 / 1000) ≤ (initParticle demoU 1).velocity.1 ∧
        (initParticle demoU 1).velocity.1 < 1 / 1000) ∧
      (-(1 / 1000) ≤ (initParticle demoU 1).velocity.2 ∧
        (initParticle demoU 1).velocity.2 < 1 / 1000)) :=
  ⟨fun n => by norm_num [demoU], by norm_num,
    init_uniform_sampling demoU (fun n => by norm_num [demoU]) 3 1 (by norm_num)⟩

/-- C4: the dispatch computes ceil(PARTICLE_COUNT / 256) workgroups,
which evaluates to 196, so the dispatch provides at least PARTICLE_COUNT
invocations, and every particle index below PARTICLE_COUNT is covered by
a definite workgroup and a definite lane of the single dispatch. -/
theorem dispatch_covers_whole_store (i : ℕ) (hi : i < PARTICLE_COUNT) :
    workgroups_x = 196 ∧
    PARTICLE_COUNT ≤ workgroups_x * WORKGROUP_SIZE ∧
    (i / WORKGROUP_SIZE < workgroups_x ∧ i % WORKGROUP_SIZE < WORKGROUP_SIZE ∧
      (i / WORKGROUP_SIZE) * WORKGROUP_SIZE + i % WORKGROUP_SIZE = i) := by
  have hw := workgroups_x_eq
  have hP : PARTICLE_COUNT = 50000 := rfl
  have hW : WORKGROUP_SIZE = 256 := rfl
  refine ⟨hw, ?_, ?_, ?_, ?_⟩
  · rw [hw, hP, hW]
    norm_num
  · rw [hw, hW]
    rw [hP] at hi
    omega
  · rw [hW]
    omega
  · rw [hW]
    omega

/-- Witness for C4 at a concrete particle index. -/
theorem dispatch_covers_whole_store_witness :
    1234 < PARTICLE_COUNT ∧
    (workgroups_x = 196 ∧
      PARTICLE_COUNT ≤ workgroups_x * WORKGROUP_SIZE ∧
      (1234 / WORKGROUP_SIZE < workgroups_x ∧ 1234 % WORKGROUP_SIZE < WORKGROUP_SIZE ∧
        (1234 / WORKGROUP_SIZE) * WORKGROUP_SIZE + 1234 % WORKGROUP_SIZE = 1234)) :=
  ⟨by norm_num [PARTICLE_COUNT],
    dispatch_covers_whole_store 1234 (by norm_num [PARTICLE_COUNT])⟩

/-- C5: the per-frame phase order places the spatial index build
strictly before the simulation dispatch (and both before the render
pass), and the quadtree handed to every kernel invocation of a frame is
built from the current, pre-update particle positions. -/
theorem quadtree_built_before_update {QT : Type} (build : List (ℚ × ℚ) → QT)
    (k : QT → List Particle → List ℕ → ℕ → Particle) (nb : ℕ → List ℕ)
    (s : List Particle) :
    frameOps = [FrameOp.buildIndex, FrameOp.simDispatch, FrameOp.renderPass] ∧
    frameOps.indexOf FrameOp.buildIndex < frameOps.indexOf FrameOp.simDispatch ∧
    frameOps.indexOf FrameOp.simDispatch < frameOps.indexOf FrameOp.renderPass ∧
    frameComputePhased build k nb s =
      (List.range s.length).map fun i => k (build (s.map Particle.position)) s (nb i) i := by
  exact ⟨rfl, by decide, by decide, rfl⟩

/-- C6: the render stage draws 3 vertices per instance and
PARTICLE_COUNT instances (one 3-vertex triangle-list primitive per
particle), steps the particle buffer per instance with stride equal to
the particle size, and supplies position and velocity as the two
instance attributes. -/
theorem render_one_triangle_per_particle :
    viewDraw.vertexFirst = 0 ∧ viewDraw.vertexCount = 3 ∧
    viewDraw.instanceFirst = 0 ∧ viewDraw.instanceCount = PARTICLE_COUNT ∧
    render_topology = PrimitiveTopology.TriangleList ∧
    viewDraw.vertexCount / 3 = 1 ∧
    vertex_buffer_layout.step_mode = StepMode.Instance ∧
    vertex_buffer_layout.array_stride = sizeOfParticle ∧
    vertex_buffer_layout.attributes =
      [ { offset := 0, shader_location := 0, format := VertexFormat.Float32x2 },
        { offset := 8, shader_location := 1, format := VertexFormat.Float32x2 } ] :=
  ⟨rfl, rfl, rfl, rfl, rfl, rfl, rfl, rfl, rfl⟩

/-- C7: a render submission leaves the particle store exactly as it was
(contents after the render pass equal contents before it), the only
read-write storage binding of the program is visible to the compute
stage alone, the render pipeline layout carries no bind group at all,
and the render pass binds the particle buffer only as a vertex buffer. -/
theorem render_pass_is_read_only (k : Kernel) (nb : ℕ → List ℕ) (st : GPUState)
    (d : RenderDraw) :
    (execSubmission k nb (Submission.render d) st).particles = st.particles ∧
    bind_group_layout_entries =
      [ { binding := 0, visibility := COMPUTE, ty := BufferBindingType.Storage false } ] ∧
    render_pipeline_bind_group_layouts = [] ∧
    viewVertexBuffers = [(0, BufferRef.particleBuffer)] :=
  ⟨rfl, rfl, rfl, rfl⟩

/-- C8: one simulation step is a pure parallel map — the updated value
of every particle index is a function of the pre-step snapshot and that
index's neighbor-query results alone — and any sequential scheduling of
the per-particle writes over any permutation of the index range produces
exactly the same store, so the update is deterministic and
order-independent. -/
theorem step_deterministic_and_order_independent (k : Kernel) (nb : ℕ → List ℕ)
    (s : List Particle) (order : List ℕ) (hperm : order.Perm (List.range s.length)) :
    schedStep k nb s order s = parallelStep k nb s ∧
    ∀ i, i < s.length → (parallelStep k nb s)[i]? = some (k s (nb i) i) := by
  have hmem : ∀ i, i ∈ order ↔ i < s.length := by
    intro i
    rw [hperm.mem_iff, List.mem_range]
  have hpar : ∀ i, i < s.length → (parallelStep k nb s)[i]? = some (k s (nb i) i) := by
    intro i hi
    simp [parallelStep, List.getElem?_map, List.getElem?_range hi]
  refine ⟨?_, hpar⟩
  apply List.ext_getElem?
  intro j
  rw [schedStep_getElem k nb s order s (fun i hi => (hmem i).1 hi) j]
  by_cases hj : j < s.length
  · rw [if_pos ((hmem j).2 hj), hpar j hj]
  · rw [if_neg fun hjo => hj ((hmem j).1 hjo)]
    have h1 : s[j]? = none := by
      rw [List.getElem?_eq_none_iff]
      omega
    have h2 : (parallelStep k nb s)[j]? = none := by
      rw [List.getElem?_eq_none_iff]
      simp [parallelStep]
      omega
    rw [h1, h2]

/-- Witness for C8 at a concrete two-particle store, with the reversed
processing order. -/
theorem step_order_independent_witness :
    ([1, 0] : List ℕ).Perm (List.range demoSmallStore.length) ∧
    (schedStep demoKernel demoNb demoSmallStore [1, 0] demoSmallStore =
        parallelStep demoKernel demoNb demoSmallStore ∧
      ∀ i, i < demoSmallStore.length →
        (parallelStep demoKernel demoNb demoSmallStore)[i]? =
          some (demoKernel demoSmallStore (demoNb i) i)) :=
  ⟨by decide,
    step_deterministic_and_order_independent demoKernel demoNb demoSmallStore [1, 0]
      (by decide)⟩

/-- C9: the repr(C) layout of Particle gives two 8-byte fields at
offsets 0 and 8 and total size 16, and the vertex buffer layout uses
stride size_of Particle with the position attribute at byte offset 0 and
the velocity attribute at byte offset 8, so attribute offsets coincide
with the struct field offsets. -/
theorem particle_layout_matches_vertex_layout :
    particleFields = [(8, 4), (8, 4)] ∧
    reprCOffsets particleFields 0 = [0, 8] ∧
    sizeOfParticle = 16 ∧
    vertex_buffer_layout.array_stride = sizeOfParticle ∧
    vertex_buffer_layout.attributes.map VertexAttribute.offset = reprCOffsets particleFields 0 := by
  refine ⟨by decide, by decide, by decide, rfl, by decide⟩

/-- C10: with PARTICLE_COUNT = 50000 and 256 invocations per workgroup,
the dispatch launches 196 workgroups, hence 50176 invocations, of which
exactly 176 have indices at or beyond PARTICLE_COUNT; the dispatch with
this workgroup count is part of the submissions of every frame. -/
theorem dispatch_overprovisions :
    PARTICLE_COUNT = 50000 ∧
    workgroups_x = 196 ∧
    workgroups_x * WORKGROUP_SIZE = 50176 ∧
    ((Finset.range (workgroups_x * WORKGROUP_SIZE)).filter
        fun i => PARTICLE_COUNT ≤ i).card = 176 ∧
    Submission.compute (workgroups_x, 1, 1) ∈ frameSubmissions := by
  have hw := workgroups_x_eq
  have hprod : workgroups_x * WORKGROUP_SIZE = 50176 := by
    rw [hw]
    rfl
  refine ⟨rfl, hw, hprod, ?_, ?_⟩
  · have hset : (Finset.range 50176).filter (fun i => PARTICLE_COUNT ≤ i)
        = Finset.Ico 50000 50176 := by
      ext x
      have hP : PARTICLE_COUNT = 50000 := rfl
      simp [Finset.mem_filter, Finset.mem_range, Finset.mem_Ico, hP, and_comm]
    rw [hprod, hset, Nat.card_Ico]
  · simp [frameSubmissions, updateSubmissions, viewSubmissions]

end ParticleShader
